import Mathlib

/-!
Shallow embedding of scripts/serve.py: a local HTTP static-file server that
serves wallet-approval.html with permissive CORS headers.

The script is modelled as a pure function from an environment (script
location, filesystem contents, bind outcome, browser-launch outcome, serve
outcome) to a trace of observable events (console prints, working-directory
change, existence check, bind attempt, browser launch, the blocking serve
loop) together with the process exit status.

The request handler (class Handler, overriding end_headers of
SimpleHTTPRequestHandler) is modelled separately: the base class buffers
response headers and the override appends the three CORS headers to the
buffer before the base finalization flushes it.
-/

/-- Observable actions of the script, in program order. -/
inductive Event where
  | chdir (dir : String)
  | existsCheck (file : String)
  | print (msg : String)
  | bindAttempt (host : String) (port : Int)
  | browserOpen (url : String)
  | serveForever
  deriving DecidableEq, Repr

/-- Outcome of constructing socketserver.TCPServer: success, or an OSError
carrying its errno and its rendered message str(e). -/
inductive BindOutcome where
  | ok
  | osErr (errno : Int) (msg : String)
  deriving DecidableEq, Repr

/-- How the blocking httpd.serve_forever() call ends: a KeyboardInterrupt,
or an OSError carrying its errno and rendered message. -/
inductive ServeOutcome where
  | interrupted
  | osErr (errno : Int) (msg : String)
  deriving DecidableEq, Repr

/-- Process termination: a normal exit with a status code, or an unhandled
exception escaping to the interpreter. -/
inductive Exit where
  | code (n : Nat)
  | unhandled (msg : String)
  deriving DecidableEq, Repr

/-- The world the script runs in: the directory the script file lives in
(os.path.dirname of os.path.abspath of the script), the working directory
of the caller at process start, which files exist (directory, file name),
and the outcomes of the bind, browser-launch and serve actions. -/
structure Env where
  scriptDir : String
  invocationDir : String
  files : String → String → Bool
  bindOutcome : BindOutcome
  browserOk : Bool
  serveOutcome : ServeOutcome

/-- Module-level constant PORT = 8000. -/
def PORT : Int := 8000

/-- Module-level constant DIRECTORY = ".". -/
def DIRECTORY : String := "."

/-- The required file name checked and served by the script. -/
def walletFile : String := "wallet-approval.html"

/-- The three CORS headers added by Handler.end_headers, in order. -/
def corsHeaders : List (String × String) :=
  [("Access-Control-Allow-Origin", "*"),
   ("Access-Control-Allow-Methods", "GET, POST, OPTIONS"),
   ("Access-Control-Allow-Headers", "Content-Type")]

/-- Handler.end_headers: send_header is called for each of the three CORS
headers, appending them to the buffered headers, and then the base
end_headers flushes the whole buffer onto the wire. -/
def Handler.endHeaders (pending : List (String × String)) :
    List (String × String) :=
  pending ++ corsHeaders

/-- An HTTP response as observed on the wire: status line plus the
finalized header list. -/
structure Response where
  status : Nat
  headers : List (String × String)
  deriving DecidableEq, Repr

/-- Serving one request through the derived Handler: the base
SimpleHTTPRequestHandler computes a status and buffered headers from the
request method and path (abstracted here as the function base, which also
covers 404 responses and directory listings), and the overridden
end_headers runs before the headers are finalized. -/
def handleRequest (base : String → String → Nat × List (String × String))
    (method path : String) : Response :=
  { status := (base method path).1,
    headers := Handler.endHeaders (base method path).2 }

/-- Accumulate decimal digits, allowing a single underscore between two
digits as Python int() does. -/
def digitsVal : List Char → Nat → Option Nat
  | [], acc => some acc
  | '_' :: c :: rest, acc =>
      if c.isDigit then digitsVal rest (acc * 10 + (c.toNat - '0'.toNat))
      else none
  | ['_'], _ => none
  | c :: rest, acc =>
      if c.isDigit then digitsVal rest (acc * 10 + (c.toNat - '0'.toNat))
      else none

/-- A nonempty run of decimal digits (with single underscores between
digits), as accepted by Python int() after the optional sign. -/
def pyDigits : List Char → Option Nat
  | c :: rest =>
      if c.isDigit then digitsVal rest (c.toNat - '0'.toNat) else none
  | [] => none

/-- Optional sign followed by digits. -/
def pyIntAux : List Char → Option Int
  | '+' :: rest => (pyDigits rest).map Int.ofNat
  | '-' :: rest => (pyDigits rest).map (fun n => -(Int.ofNat n))
  | cs => (pyDigits cs).map Int.ofNat

/-- Strip leading and trailing whitespace from a character list, as
Python int() does before parsing. -/
def pyStrip (cs : List Char) : List Char :=
  ((cs.dropWhile Char.isWhitespace).reverse.dropWhile Char.isWhitespace).reverse

/-- Model of Python int(s) on a string in base 10: surrounding whitespace
is stripped, an optional sign is accepted, and the digits may contain
single underscores between digits; anything else raises ValueError,
modelled as none. Note that negative numbers and zero parse fine. -/
def pythonInt (s : String) : Option Int :=
  pyIntAux (pyStrip s.toList)

/-- The warning printed when int(sys.argv[1]) raises ValueError. -/
def invalidPortMsg : String :=
  "❌ Invalid port number. Using default port 8000."

/-- The separator printed just before serve_forever: a newline followed by
fifty equals signs. -/
def sepLine : String := "\n" ++ String.mk (List.replicate 50 '=')

/-- The URL printed and opened by the script for a given port:
f-string http://localhost:PORT/wallet-approval.html. -/
def walletUrl (port : Int) : String :=
  "http://localhost:" ++ toString port ++ "/" ++ walletFile

/-- The except OSError handler: errno 48 is treated by the script as
address-already-in-use and gets the suggestion to retry on port + 1; any
other errno gets the generic message with str(e). -/
def osError (port : Int) (errno : Int) (msg : String) : List Event :=
  if errno = 48 then
    [Event.print ("❌ Port " ++ toString port ++
       " is already in use. Try a different port:"),
     Event.print ("   python3 serve.py " ++ toString (port + 1))]
  else
    [Event.print ("❌ Error starting server: " ++ msg)]

/-- The function main() of the script, at a given value of the global PORT:
change into the script directory, check that wallet-approval.html exists
(exiting with status 1 if not), then attempt to bind ("", port); on
success print the banner, try to open the browser, and block in
serve_forever until a KeyboardInterrupt or OSError ends it. All modelled
exceptions are caught, so every path returns a normal exit code. -/
def Serve.main (port : Int) (env : Env) : List Event × Exit :=
  let cwd := env.scriptDir
  let tr0 := [Event.chdir env.scriptDir, Event.existsCheck walletFile]
  if env.files cwd walletFile = false then
    (tr0 ++
      [Event.print "❌ Error: wallet-approval.html not found in current directory",
       Event.print ("   Current directory: " ++ cwd)],
     Exit.code 1)
  else
    match env.bindOutcome with
    | BindOutcome.osErr e m =>
        (tr0 ++ [Event.bindAttempt "" port] ++ osError port e m, Exit.code 0)
    | BindOutcome.ok =>
        let url := walletUrl port
        let banner :=
          [Event.print "🚀 Starting local development server...",
           Event.print ("📁 Serving files from: " ++ cwd),
           Event.print ("🌐 Server running at: http://localhost:" ++ toString port),
           Event.print ("🔗 Wallet interface: " ++ url),
           Event.print "",
           Event.print "✅ This should fix MetaMask detection issues!",
           Event.print "💡 Press Ctrl+C to stop the server",
           Event.print ""]
        let browser :=
          if env.browserOk then
            [Event.browserOpen url,
             Event.print "🌐 Opening browser automatically..."]
          else
            [Event.browserOpen url,
             Event.print ("⚠️  Please manually open: " ++ url)]
        let pre := tr0 ++ [Event.bindAttempt "" port] ++ banner ++ browser ++
          [Event.print sepLine, Event.serveForever]
        match env.serveOutcome with
        | ServeOutcome.interrupted =>
            (pre ++ [Event.print "\n\n👋 Server stopped. Goodbye!"], Exit.code 0)
        | ServeOutcome.osErr e m =>
            (pre ++ osError port e m, Exit.code 0)

/-- The if __name__ == "__main__" block: when a command-line argument is
present, PORT is reassigned to int(sys.argv[1]); a ValueError prints the
warning and leaves PORT at 8000; then main() runs. argv includes the
program name at position 0. -/
def program (argv : List String) (env : Env) : List Event × Exit :=
  match argv with
  | _ :: a :: _ =>
      match pythonInt a with
      | some p => Serve.main p env
      | none =>
          let r := Serve.main PORT env
          (Event.print invalidPortMsg :: r.1, r.2)
  | _ => Serve.main PORT env

/-- Does a bindAttempt event occur in a trace? -/
def isBind : Event → Bool
  | Event.bindAttempt _ _ => true
  | _ => false

/-- Boolean test: some bind attempt occurs in the trace. -/
def hasBind (tr : List Event) : Bool := tr.any isBind

/-- The (host, port) pair of a bind attempt, if the event is one. -/
def bindTarget : Event → Option (String × Int)
  | Event.bindAttempt h p => some (h, p)
  | _ => none

/-- All bind attempts of a trace, in order. -/
def bindTargets (tr : List Event) : List (String × Int) :=
  tr.filterMap bindTarget

/-- A concrete environment where everything succeeds: the required file
exists, the bind succeeds, the browser opens, and serving ends with a
KeyboardInterrupt. -/
def envOk : Env :=
  { scriptDir := "/srv/bundefi/scripts",
    invocationDir := "/home/user",
    files := fun _ _ => true,
    bindOutcome := BindOutcome.ok,
    browserOk := true,
    serveOutcome := ServeOutcome.interrupted }

/-- A concrete environment where wallet-approval.html is absent. -/
def envNoFile : Env :=
  { envOk with files := fun _ _ => false }

/-- A concrete environment where the bind fails with errno 48, the code
for address-already-in-use used by the script. -/
def envBindFail : Env :=
  { envOk with
    bindOutcome := BindOutcome.osErr 48 "[Errno 48] Address already in use" }

/-- A concrete environment where the browser launch fails. -/
def envNoBrowser : Env :=
  { envOk with browserOk := false }

/-- Helper: bindTargets distributes over list append. -/
theorem bindTargets_append (a b : List Event) :
    bindTargets (a ++ b) = bindTargets a ++ bindTargets b := by
  simp [bindTargets]

/-- Helper: the OSError handler only prints, so it contains no bind
attempt. -/
theorem bindTargets_osError (port errno : Int) (msg : String) :
    bindTargets (osError port errno msg) = [] := by
  unfold osError
  split <;> simp [bindTargets, bindTarget]

/-- Claim C1: for every HTTP response the Handler produces, whatever
status and buffered headers the base class computed from the request
method and path, the three CORS headers are all present in the finalized
header list. -/
theorem cors_headers_on_every_response
    (base : String → String → Nat × List (String × String))
    (method path : String) :
    ("Access-Control-Allow-Origin", "*")
      ∈ (handleRequest base method path).headers ∧
    ("Access-Control-Allow-Methods", "GET, POST, OPTIONS")
      ∈ (handleRequest base method path).headers ∧
    ("Access-Control-Allow-Headers", "Content-Type")
      ∈ (handleRequest base method path).headers := by
  simp [handleRequest, Handler.endHeaders, corsHeaders]

/-- Claim C10: the CORS injection happens unconditionally at header
finalization: the finalized headers are exactly the buffered ones followed
by the three CORS headers and the status is untouched, so all responses,
404 errors and directory listings included, carry them. -/
theorem cors_injection_unconditional
    (base : String → String → Nat × List (String × String))
    (method path : String) :
    ((handleRequest base method path).headers =
      (base method path).2 ++ corsHeaders ∧
     (handleRequest base method path).status = (base method path).1) ∧
    ∀ pending : List (String × String),
      ("Access-Control-Allow-Origin", "*")
        ∈ (handleRequest (fun _ _ => (404, pending)) method path).headers := by
  refine ⟨⟨rfl, rfl⟩, ?_⟩
  intro pending
  simp [handleRequest, Handler.endHeaders, corsHeaders]

/-- Claim C2: when wallet-approval.html is absent from the script
directory, main prints the error together with the resolved working
directory, exits with status 1, and never attempts to bind a listener. -/
theorem missing_file_fails_fast (port : Int) (env : Env)
    (hfile : env.files env.scriptDir walletFile = false) :
    (Serve.main port env).2 = Exit.code 1 ∧
    Event.print "❌ Error: wallet-approval.html not found in current directory"
      ∈ (Serve.main port env).1 ∧
    Event.print ("   Current directory: " ++ env.scriptDir)
      ∈ (Serve.main port env).1 ∧
    hasBind (Serve.main port env).1 = false := by
  unfold Serve.main
  simp [hfile, hasBind, isBind]

/-- Witness for C2 at a concrete environment with the file absent. -/
theorem missing_file_fails_fast_witness :
    (Serve.main 8000 envNoFile).2 = Exit.code 1 ∧
    Event.print "❌ Error: wallet-approval.html not found in current directory"
      ∈ (Serve.main 8000 envNoFile).1 ∧
    Event.print ("   Current directory: " ++ envNoFile.scriptDir)
      ∈ (Serve.main 8000 envNoFile).1 ∧
    hasBind (Serve.main 8000 envNoFile).1 = false :=
  missing_file_fails_fast 8000 envNoFile rfl

/-- Helper: every event emitted by the OSError handler is a print, so none
of them is a bind attempt. -/
theorem bindTarget_of_mem_osError (port errno : Int) (msg : String) :
    ∀ e ∈ osError port errno msg, bindTarget e = none := by
  intro e he
  unfold osError at he
  split at he <;>
    simp only [List.mem_cons, List.not_mem_nil, or_false] at he
  · rcases he with rfl | rfl <;> rfl
  · subst he; rfl

/-- Claim C3 counterexample: the argument -5 is not a valid positive
integer port, yet int() parses it, so the script uses port -5 rather than
falling back to 8000, and prints no warning. -/
theorem port_fallback_counterexample :
    pythonInt "-5" = some (-5) ∧
    bindTargets (program ["serve.py", "-5"] envOk).1 = [("", -5)] ∧
    Event.print invalidPortMsg ∉ (program ["serve.py", "-5"] envOk).1 := by
  exact ⟨by decide, by decide, by decide⟩

/-- Claim C3 as amended: with no port argument the server uses 8000
silently; with an argument that int() rejects it warns and uses 8000; with
an argument that int() accepts it uses the parsed value verbatim, even
when that value is not a valid positive port. -/
theorem port_argument_semantics (env : Env) (argv0 a b : String)
    (restA restB : List String) (p : Int)
    (ha : pythonInt a = none) (hb : pythonInt b = some p) :
    program [argv0] env = Serve.main 8000 env ∧
    program (argv0 :: a :: restA) env =
      (Event.print invalidPortMsg :: (Serve.main 8000 env).1,
       (Serve.main 8000 env).2) ∧
    program (argv0 :: b :: restB) env = Serve.main p env := by
  refine ⟨rfl, ?_, ?_⟩ <;> simp [program, ha, hb, PORT]

/-- Witness for the amended C3 at the arguments abc and 9000. -/
theorem port_argument_semantics_witness :
    program ["serve.py"] envOk = Serve.main 8000 envOk ∧
    program ["serve.py", "abc"] envOk =
      (Event.print invalidPortMsg :: (Serve.main 8000 envOk).1,
       (Serve.main 8000 envOk).2) ∧
    program ["serve.py", "9000"] envOk = Serve.main 9000 envOk :=
  port_argument_semantics envOk "serve.py" "abc" "9000" [] [] 9000
    (by decide) (by decide)

/-- Claim C4: for a command-line argument parsed as a positive integer p,
with the required file present and the bind succeeding, the one and only
bind attempt targets the wildcard host at exactly port p, and the printed
wallet-interface URL carries port p. -/
theorem valid_port_binds_exactly (env : Env) (argv0 a : String)
    (rest : List String) (p : Int)
    (hp : pythonInt a = some p) (hpos : 0 < p)
    (hfile : env.files env.scriptDir walletFile = true)
    (hbind : env.bindOutcome = BindOutcome.ok) :
    bindTargets (program (argv0 :: a :: rest) env).1 = [("", p)] ∧
    Event.print ("🔗 Wallet interface: " ++ walletUrl p)
      ∈ (program (argv0 :: a :: rest) env).1 := by
  have hprog : program (argv0 :: a :: rest) env = Serve.main p env := by
    simp [program, hp]
  rw [hprog]
  unfold Serve.main
  rw [hbind]
  cases hbr : env.browserOk <;> cases hs : env.serveOutcome <;>
    simp [hfile, bindTargets_append, bindTargets_osError,
      bindTargets, bindTarget] <;>
    exact bindTarget_of_mem_osError _ _ _

/-- Witness for C4 at the argument 9000 in the all-success environment. -/
theorem valid_port_binds_exactly_witness :
    bindTargets (program ["serve.py", "9000"] envOk).1 = [("", 9000)] ∧
    Event.print ("🔗 Wallet interface: " ++ walletUrl 9000)
      ∈ (program ["serve.py", "9000"] envOk).1 :=
  valid_port_binds_exactly envOk "serve.py" "9000" [] 9000
    (by decide) (by decide) rfl rfl

/-- Claim C5: when the bind fails with errno 48, the code the script
treats as address-already-in-use, main prints the suggestion naming port
plus one and returns normally with exit status 0, so no unhandled error
escapes. -/
theorem addr_in_use_diagnostic (port : Int) (env : Env) (m : String)
    (hfile : env.files env.scriptDir walletFile = true)
    (hbind : env.bindOutcome = BindOutcome.osErr 48 m) :
    Event.print ("   python3 serve.py " ++ toString (port + 1))
      ∈ (Serve.main port env).1 ∧
    (Serve.main port env).2 = Exit.code 0 := by
  unfold Serve.main
  rw [hbind]
  simp [hfile, osError]

/-- Witness for C5 at port 8000 in the bind-failure environment. -/
theorem addr_in_use_diagnostic_witness :
    Event.print ("   python3 serve.py " ++ toString ((8000 : Int) + 1))
      ∈ (Serve.main 8000 envBindFail).1 ∧
    (Serve.main 8000 envBindFail).2 = Exit.code 0 :=
  addr_in_use_diagnostic 8000 envBindFail "[Errno 48] Address already in use"
    rfl rfl

/-- Claim C6 counterexample: a bind failure is caught and main merely
falls through, so the process exit status is 0, not a non-zero value. -/
theorem bind_failure_exit_counterexample :
    envBindFail.bindOutcome =
      BindOutcome.osErr 48 "[Errno 48] Address already in use" ∧
    (Serve.main 8000 envBindFail).2 = Exit.code 0 := by
  exact ⟨rfl, by decide⟩

/-- Claim C6 as amended: the exit status is 1 exactly when the required
file is missing; every other modelled path, normal or interrupted shutdown
and caught bind or serve OSErrors included, exits with status 0. -/
theorem exit_code_characterization (port : Int) (env : Env) :
    (Serve.main port env).2 =
      Exit.code (if env.files env.scriptDir walletFile then 0 else 1) := by
  unfold Serve.main
  cases hf : env.files env.scriptDir walletFile <;>
    cases hb : env.bindOutcome <;> cases hbr : env.browserOk <;>
      cases hs : env.serveOutcome <;> simp [hf, hb, hbr, hs]

/-- Claim C7: the very first action of main is the change into the script
directory, before the existence check (second action) and before any bind
attempt; consequently the whole run is independent of the working
directory the caller invoked the script from. -/
theorem chdir_before_check_and_bind (port : Int) (env : Env) :
    (Serve.main port env).1.take 2 =
      [Event.chdir env.scriptDir, Event.existsCheck walletFile] ∧
    ∀ d : String,
      Serve.main port { env with invocationDir := d } = Serve.main port env := by
  constructor
  · unfold Serve.main
    cases hf : env.files env.scriptDir walletFile <;>
      cases hb : env.bindOutcome <;> cases hbr : env.browserOk <;>
        cases hs : env.serveOutcome <;> simp [hf, hb, hbr, hs]
  · intro d
    rfl

/-- Claim C8: a KeyboardInterrupt ending serve_forever is caught: the
farewell message is printed and main returns normally with exit status 0,
so no unhandled exception surfaces. -/
theorem interrupt_clean_shutdown (port : Int) (env : Env)
    (hfile : env.files env.scriptDir walletFile = true)
    (hbind : env.bindOutcome = BindOutcome.ok)
    (hint : env.serveOutcome = ServeOutcome.interrupted) :
    Event.print "\n\n👋 Server stopped. Goodbye!" ∈ (Serve.main port env).1 ∧
    (Serve.main port env).2 = Exit.code 0 := by
  unfold Serve.main
  rw [hbind, hint]
  cases hbr : env.browserOk <;> simp [hfile, hbr]

/-- Witness for C8 in the all-success environment at port 8000. -/
theorem interrupt_clean_shutdown_witness :
    Event.print "\n\n👋 Server stopped. Goodbye!" ∈ (Serve.main 8000 envOk).1 ∧
    (Serve.main 8000 envOk).2 = Exit.code 0 :=
  interrupt_clean_shutdown 8000 envOk rfl rfl rfl

/-- Claim C9: a failing browser launch is caught: the manual-open hint is
printed, serve_forever is still reached, and the exit status equals the
one of the same run with a working browser, so the failure is never
fatal. -/
theorem browser_failure_nonfatal (port : Int) (env : Env)
    (hfile : env.files env.scriptDir walletFile = true)
    (hbind : env.bindOutcome = BindOutcome.ok)
    (hbr : env.browserOk = false) :
    Event.print ("⚠️  Please manually open: " ++ walletUrl port)
      ∈ (Serve.main port env).1 ∧
    Event.serveForever ∈ (Serve.main port env).1 ∧
    (Serve.main port env).2 =
      (Serve.main port { env with browserOk := true }).2 := by
  unfold Serve.main
  rw [hbind, hbr]
  cases hs : env.serveOutcome <;> simp [hfile, hs]

/-- Witness for C9 in the failing-browser environment at port 8000. -/
theorem browser_failure_nonfatal_witness :
    Event.print ("⚠️  Please manually open: " ++ walletUrl 8000)
      ∈ (Serve.main 8000 envNoBrowser).1 ∧
    Event.serveForever ∈ (Serve.main 8000 envNoBrowser).1 ∧
    (Serve.main 8000 envNoBrowser).2 =
      (Serve.main 8000 { envNoBrowser with browserOk := true }).2 :=
  browser_failure_nonfatal 8000 envNoBrowser rfl rfl rfl
